import Mathlib

/-!
Shallow embedding of the tabular data-analysis core of the excelAnalyser
repository (`utils/data_analyzer.py`, `utils/kpi_generator.py`, and the
report serializer `generate_analysis_report` in `app.py`), together with
theorems settling the frozen claims about it.

Modelling conventions:
* A pandas DataFrame is a list of named, typed columns; cell values are
  `Option`-wrapped (`none` models a null/NaN cell).  Machine floats are
  modelled as exact rationals `ℚ`.
* A float expression whose value is irrational in the exact model (it
  involves a square root: Pearson correlation, a coefficient of variation)
  is represented through the strictly monotone bijection `v ↦ sign v * v ^ 2`,
  which preserves every comparison, sign test and definedness test the
  source performs on such a value.  Thresholds compared against such
  values live in the same encoded domain.
* Fallible evaluation is explicit: `Option` for float NaN results,
  `Except PyErr` for raised Python exceptions.
-/

/-- Typed cell storage of one pandas column: numeric (float), categorical
(object/str), or datetime (modelled as whole days since an epoch). -/
inductive ColVals where
  | num (vs : List (Option ℚ))
  | cat (vs : List (Option String))
  | dt (vs : List (Option ℤ))
deriving DecidableEq

/-- A named column of a DataFrame. -/
structure Column where
  name : String
  vals : ColVals
deriving DecidableEq

instance : Inhabited Column := ⟨⟨"", ColVals.num []⟩⟩

/-- A DataFrame: ordered sequence of named columns. -/
abbrev Table := List Column

/-- Number of stored cells of one column. -/
def clen (c : Column) : ℕ :=
  match c.vals with
  | ColVals.num vs => vs.length
  | ColVals.cat vs => vs.length
  | ColVals.dt vs => vs.length

/-- `len(self.data)`: the row count of the DataFrame (all columns share it;
modelled as the length of the first column). -/
def nRows (t : Table) : ℕ :=
  match t with
  | [] => 0
  | c :: _ => clen c

/-- Rectangularity of the modelled frame: every column has the common row
count.  pandas guarantees this for any real DataFrame. -/
def Rect (t : Table) : Prop := ∀ c ∈ t, clen c = nRows t

instance : DecidablePred Rect := fun t => List.decidableBAll _ t

/-- The numeric cells of a column (empty for non-numeric columns). -/
def numData (c : Column) : List (Option ℚ) :=
  match c.vals with
  | ColVals.num vs => vs
  | _ => []

/-- The categorical cells of a column (empty for non-categorical columns). -/
def catData (c : Column) : List (Option String) :=
  match c.vals with
  | ColVals.cat vs => vs
  | _ => []

/-- The datetime cells of a column (empty for non-datetime columns). -/
def dtData (c : Column) : List (Option ℤ) :=
  match c.vals with
  | ColVals.dt vs => vs
  | _ => []

/-- Does the column have numeric dtype? -/
def isNumC (c : Column) : Bool :=
  match c.vals with
  | ColVals.num _ => true
  | _ => false

/-- Does the column have object (categorical) dtype? -/
def isCatC (c : Column) : Bool :=
  match c.vals with
  | ColVals.cat _ => true
  | _ => false

/-- Does the column have datetime dtype? -/
def isDtC (c : Column) : Bool :=
  match c.vals with
  | ColVals.dt _ => true
  | _ => false

/-- `select_dtypes(include=[np.number])`: the numeric columns, in order. -/
def numericCols (t : Table) : List Column := t.filter isNumC

/-- `select_dtypes(include=['object'])`: the categorical columns, in order. -/
def catCols (t : Table) : List Column := t.filter isCatC

/-- `select_dtypes(include=['datetime64'])`: the datetime columns, in order. -/
def dtCols (t : Table) : List Column := t.filter isDtC

/-- `isnull().sum()` of one column: its null-cell count. -/
def missingCount (c : Column) : ℕ :=
  match c.vals with
  | ColVals.num vs => vs.countP (fun v => v.isNone)
  | ColVals.cat vs => vs.countP (fun v => v.isNone)
  | ColVals.dt vs => vs.countP (fun v => v.isNone)

/-- `count()` of one column: its non-null cell count. -/
def nonNullCount (c : Column) : ℕ :=
  match c.vals with
  | ColVals.num vs => vs.countP (fun v => v.isSome)
  | ColVals.cat vs => vs.countP (fun v => v.isSome)
  | ColVals.dt vs => vs.countP (fun v => v.isSome)

/-- `nunique()` of one column: number of distinct non-null values. -/
def nuniqueCol (c : Column) : ℕ :=
  match c.vals with
  | ColVals.num vs => (vs.filterMap id).dedup.length
  | ColVals.cat vs => (vs.filterMap id).dedup.length
  | ColVals.dt vs => (vs.filterMap id).dedup.length

/-- An untyped cell value, used for whole-row comparisons (`duplicated()`). -/
inductive CellV where
  | qv (q : ℚ)
  | sv (s : String)
  | zv (z : ℤ)
deriving DecidableEq

/-- The cell of column `c` at row position `i` (`none` models null). -/
def cellAt (c : Column) (i : ℕ) : Option CellV :=
  match c.vals with
  | ColVals.num vs => (vs.getD i none).map CellV.qv
  | ColVals.cat vs => (vs.getD i none).map CellV.sv
  | ColVals.dt vs => (vs.getD i none).map CellV.zv

/-- Row `i` of the frame as a tuple of cells (nulls compare equal to nulls,
matching how `duplicated()` treats NaN). -/
def rowTuple (t : Table) (i : ℕ) : List (Option CellV) :=
  t.map (fun c => cellAt c i)

/-- `duplicated().sum()`: rows that repeat an earlier row. -/
def dupCount (t : Table) : ℕ :=
  ((List.range (nRows t)).filter
    (fun i => decide (∃ j ∈ List.range i, rowTuple t j = rowTuple t i))).length

/-- Total cell count `rows * columns` of the frame. -/
def totalCellsF (t : Table) : ℕ := nRows t * t.length

/-- `isnull().sum().sum()`: total null-cell count of the frame. -/
def missingCellsF (t : Table) : ℕ := (t.map missingCount).sum

/-- Round-half-even to the nearest integer, the rounding CPython's `round`
applies to the exact value of its float argument. -/
def rhe (q : ℚ) : ℤ :=
  if Int.fract q < 1 / 2 then ⌊q⌋
  else if 1 / 2 < Int.fract q then ⌊q⌋ + 1
  else if ⌊q⌋ % 2 = 0 then ⌊q⌋ else ⌊q⌋ + 1

/-- Python's `round(x, 2)` on the exact rational model of `x`. -/
def round2 (q : ℚ) : ℚ := (rhe (q * 100) : ℚ) / 100

/-- Result record of `get_data_quality_metrics`.  A percentage field is
`none` when the Python computation divides by zero and hence produces a
float NaN (numpy emits a warning and yields `nan`, it does not raise). -/
structure QMetrics where
  totalCells : ℕ
  missingCells : ℕ
  missingPct : Option ℚ
  dupRows : ℕ
  dupPct : Option ℚ
  completeness : Option ℚ
deriving DecidableEq

/-- `DataAnalyzer.get_data_quality_metrics`. -/
def getDataQualityMetrics (t : Table) : QMetrics :=
  let tc := totalCellsF t
  let mc := missingCellsF t
  let dr := dupCount t
  { totalCells := tc
    missingCells := mc
    missingPct := if tc = 0 then none else some (round2 ((mc : ℚ) / (tc : ℚ) * 100))
    dupRows := dr
    dupPct := if nRows t = 0 then none else some (round2 ((dr : ℚ) / (nRows t : ℚ) * 100))
    completeness := if tc = 0 then none
      else some (round2 (((tc : ℚ) - (mc : ℚ)) / (tc : ℚ) * 100)) }

/-- Descending order on missing-value report entries, keyed by the missing
count (`sort_values('Missing_Count', ascending=False)`). -/
def relDescMiss (a b : String × ℕ × ℚ) : Prop := b.2.1 ≤ a.2.1

instance : DecidableRel relDescMiss := fun a b => Nat.decLe b.2.1 a.2.1

instance : IsTotal (String × ℕ × ℚ) relDescMiss := ⟨fun a b => le_total b.2.1 a.2.1⟩

instance : IsTrans (String × ℕ × ℚ) relDescMiss := ⟨fun _ _ _ h1 h2 => le_trans h2 h1⟩

/-- `DataAnalyzer.analyze_missing_values`: the per-column missing counts
restricted to columns with at least one null, with percentages, sorted
descending by missing count. -/
def analyzeMissingValues (t : Table) : List (String × ℕ × ℚ) :=
  let md := (t.map (fun c => (c.name, missingCount c))).filter (fun p => decide (0 < p.2))
  if md = [] then []
  else List.insertionSort relDescMiss
    (md.map (fun p => (p.1, p.2, (p.2 : ℚ) / (nRows t : ℚ) * 100)))

/-- Kinds of Python exceptions the embedded operations can raise. -/
inductive PyErr where
  /-- `UnboundLocalError`: `outliers` read before assignment in
  `detect_outliers` when the method string matches no branch. -/
  | unboundLocal
  /-- `KeyError`: `sort_values('Correlation')` on an empty DataFrame that
  has no `Correlation` column. -/
  | keyError
  /-- `IndexError`: boolean mask of the wrong length, produced by the
  z-score branch when the column contains nulls. -/
  | indexErr
deriving DecidableEq

/-- Ascending sort of a list of rationals. -/
def sortQ (l : List ℚ) : List ℚ := List.insertionSort (· ≤ ·) l

/-- `Series.quantile(q)` with the default linear interpolation: position
`q * (n - 1)` in the ascending sort, linearly interpolated; NaN (`none`)
on an empty series. -/
def quantileL (xs : List ℚ) (q : ℚ) : Option ℚ :=
  let s := sortQ xs
  if s.length = 0 then none
  else
    let hq : ℚ := q * ((s.length : ℚ) - 1)
    let k : ℕ := (⌊hq⌋).toNat
    let f : ℚ := hq - (k : ℚ)
    let a := s.getD k 0
    let b := s.getD (k + 1) a
    some (a + f * (b - a))

/-- The IQR branch of `detect_outliers` on one numeric column: values
outside `[Q1 - 1.5*IQR, Q3 + 1.5*IQR]`.  When a quantile is NaN (all-null
column) every comparison with it is false, so nothing is flagged. -/
def iqrOutliers (vs : List (Option ℚ)) : List ℚ :=
  let nn := vs.filterMap id
  match quantileL nn (1 / 4), quantileL nn (3 / 4) with
  | some q1, some q3 =>
    let iqr := q3 - q1
    let lo := q1 - 3 / 2 * iqr
    let hi := q3 + 3 / 2 * iqr
    nn.filter (fun v => decide (v < lo ∨ hi < v))
  | _, _ => []

/-- The z-score branch of `detect_outliers` on one numeric column:
`stats.zscore` is taken over the non-null values, and the resulting boolean
mask is applied to the full column, so a column containing nulls raises an
`IndexError` (mask length mismatch); zero variance yields NaN z-scores and
hence no flags.  `|z| > 3` is decided through the equivalent rational test
`(x - mean) ^ 2 > 9 * variance` (population variance, ddof = 0). -/
def zscoreOutliers (vs : List (Option ℚ)) : Except PyErr (List ℚ) :=
  let nn := vs.filterMap id
  if nn.length ≠ vs.length then Except.error PyErr.indexErr
  else if nn.length = 0 then Except.ok []
  else
    let n : ℚ := (nn.length : ℚ)
    let mu := nn.sum / n
    let v0 := (nn.map (fun x => (x - mu) ^ 2)).sum / n
    if v0 = 0 then Except.ok []
    else Except.ok (nn.filter (fun x => decide ((x - mu) ^ 2 > 9 * v0)))

/-- The per-column loop body plus accumulation of `detect_outliers`:
columns are processed in order, a raised exception aborts the loop, and a
column whose outlier list is empty is omitted from the result. -/
def detectOutliersCols : List Column → String → Except PyErr (List (String × List ℚ))
  | [], _ => Except.ok []
  | c :: cs, m =>
    let res : Except PyErr (List ℚ) :=
      if m = "iqr" then Except.ok (iqrOutliers (numData c))
      else if m = "zscore" then zscoreOutliers (numData c)
      else Except.error PyErr.unboundLocal
    match res with
    | Except.error e => Except.error e
    | Except.ok outs =>
      match detectOutliersCols cs m with
      | Except.error e => Except.error e
      | Except.ok rest =>
        Except.ok (if outs = [] then rest else (c.name, outs) :: rest)

/-- `DataAnalyzer.detect_outliers(method)`. -/
def detectOutliers (t : Table) (m : String) : Except PyErr (List (String × List ℚ)) :=
  detectOutliersCols (numericCols t) m

/-- Rows where both series are non-null, the sample Pearson correlation is
computed over (`corr()` uses pairwise-complete observations). -/
def pairsOf (x y : List (Option ℚ)) : List (ℚ × ℚ) :=
  (List.zip x y).filterMap (fun p => p.1.bind (fun a => p.2.map (fun b => (a, b))))

/-- `n * Σ ab - Σ a * Σ b`: numerator of Pearson r, scaled by `n ^ 2`. -/
def sNum (ps : List (ℚ × ℚ)) : ℚ :=
  (ps.length : ℚ) * (ps.map (fun p => p.1 * p.2)).sum
    - (ps.map (fun p => p.1)).sum * (ps.map (fun p => p.2)).sum

/-- `n * Σ a² - (Σ a)²`: the first factor of the squared denominator. -/
def sDen1 (ps : List (ℚ × ℚ)) : ℚ :=
  (ps.length : ℚ) * (ps.map (fun p => p.1 ^ 2)).sum - (ps.map (fun p => p.1)).sum ^ 2

/-- `n * Σ b² - (Σ b)²`: the second factor of the squared denominator. -/
def sDen2 (ps : List (ℚ × ℚ)) : ℚ :=
  (ps.length : ℚ) * (ps.map (fun p => p.2 ^ 2)).sum - (ps.map (fun p => p.2)).sum ^ 2

/-- Pearson correlation of two columns in the sign-times-square encoding
`r ↦ sign r * r ^ 2` (see the module comment); `none` models the NaN that
pandas produces when either series has zero variance on the paired rows. -/
def corrS (x y : List (Option ℚ)) : Option ℚ :=
  let ps := pairsOf x y
  let d := sDen1 ps * sDen2 ps
  if d = 0 then none else some (sNum ps * |sNum ps| / d)

/-- `DataAnalyzer.calculate_correlation_matrix`: the full matrix over the
numeric columns when at least two exist, the empty DataFrame (`none`)
otherwise. -/
def corrMatrix (t : Table) : Option (List (List (Option ℚ))) :=
  if 1 < (numericCols t).length then
    some ((numericCols t).map (fun ci =>
      (numericCols t).map (fun cj => corrS (numData ci) (numData cj))))
  else none

/-- One row of the `find_strong_correlations` result:
(Variable 1, Variable 2, correlation in the encoded domain, strength label). -/
abbrev StrongEntry := String × String × ℚ × String

/-- Descending order on strong-correlation entries, keyed by the absolute
correlation (`sort_values('Correlation', key=abs, ascending=False)`). -/
def relDescAbs (a b : StrongEntry) : Prop := |b.2.2.1| ≤ |a.2.2.1|

instance : DecidableRel relDescAbs := fun a b =>
  inferInstanceAs (Decidable (|b.2.2.1| ≤ |a.2.2.1|))

instance : IsTotal StrongEntry relDescAbs := ⟨fun a b => le_total |b.2.2.1| |a.2.2.1|⟩

instance : IsTrans StrongEntry relDescAbs := ⟨fun _ _ _ h1 h2 => le_trans h2 h1⟩

/-- The double scan of the strictly-upper triangle in
`find_strong_correlations`: column index `j` is the outer loop, row index
`i` the inner loop, a pair is kept when its correlation is not NaN and
`|r| >= threshold` (in the encoded domain `|enc| >= thetaEnc` with
`thetaEnc = sign θ * θ ^ 2`). -/
def strongScan (t : Table) (thetaEnc : ℚ) : List StrongEntry :=
  let cs := numericCols t
  (List.range cs.length).flatMap (fun j =>
    (List.range cs.length).flatMap (fun i =>
      if i < j then
        (corrS (numData (cs.getD i default)) (numData (cs.getD j default))).elim []
          (fun e =>
            if thetaEnc ≤ |e| then
              [((cs.getD i default).name, (cs.getD j default).name, e,
                if 0 < e then "Strong Positive" else "Strong Negative")]
            else [])
      else []))

/-- `DataAnalyzer.find_strong_correlations(threshold)`: empty result when
the correlation matrix is empty; otherwise the kept upper-triangle pairs
sorted descending by absolute correlation — except that when no pair was
kept, `pd.DataFrame([]).sort_values('Correlation', ...)` raises `KeyError`
because the empty frame has no such column. -/
def findStrongCorrelations (t : Table) (thetaEnc : ℚ) :
    Except PyErr (List StrongEntry) :=
  match corrMatrix t with
  | none => Except.ok []
  | some _ =>
    let s := strongScan t thetaEnc
    if s = [] then Except.error PyErr.keyError
    else Except.ok (List.insertionSort relDescAbs s)

/-- The operation a generated KPI's bound computation performs, recording
which lambda was attached at generation time (the spec's design notes ask
for exactly this tagged-variant representation). -/
inductive KKind where
  | meanK | varbK | rangeK
  | volumeK | densityK | diversityK
  | completenessK | uniquenessK | consistencyK
  | spanK | freqK | growthK
  | totalK | avgRecK | custDivK | successK
deriving DecidableEq

/-- One generated KPI: display name, description, the kind of its bound
computation, and that computation's value on the generation table.
`value = none` models every "unavailable" outcome: a Python `None`, a float
NaN, or an exception raised during evaluation. -/
structure KPI where
  name : String
  descr : String
  kind : KKind
  value : Option ℚ
deriving DecidableEq

/-- `Series.mean()` of a numeric column: NaN (`none`) when the column has
no non-null values. -/
def meanQ (c : Column) : Option ℚ :=
  let nn := (numData c).filterMap id
  if nn.length = 0 then none else some (nn.sum / (nn.length : ℚ))

/-- Sample variance (`ddof = 1`, the square of `Series.std()`): NaN
(`none`) with fewer than two non-null values. -/
def var1Q (c : Column) : Option ℚ :=
  let nn := (numData c).filterMap id
  if nn.length ≤ 1 then none
  else
    let mu := nn.sum / (nn.length : ℚ)
    some ((nn.map (fun x => (x - mu) ^ 2)).sum / ((nn.length : ℚ) - 1))

/-- `Series.min()`: NaN (`none`) when the column has no non-null values. -/
def minQ (c : Column) : Option ℚ :=
  match (numData c).filterMap id with
  | [] => none
  | v :: vs => some (vs.foldl min v)

/-- `Series.max()`: NaN (`none`) when the column has no non-null values. -/
def maxQ (c : Column) : Option ℚ :=
  match (numData c).filterMap id with
  | [] => none
  | v :: vs => some (vs.foldl max v)

/-- The Variability Index computation
`(std / mean) * 100 if mean != 0 and not isna(mean) else None`, in the
sign-times-square encoding: `sign(mean) * var * 10000 / mean ^ 2`.
A NaN std (fewer than two non-null values) propagates to a NaN result. -/
def varbVal (c : Column) : Option ℚ :=
  match meanQ c with
  | none => none
  | some m =>
    if m = 0 then none
    else
      match var1Q c with
      | none => none
      | some v => some ((if 0 < m then 1 else -1) * (v * 10000) / m ^ 2)

/-- The Range Ratio computation
`max / min if min != 0 and not isna(min) else None`. -/
def rangeVal (c : Column) : Option ℚ :=
  match minQ c, maxQ c with
  | some mn, some mx => if mn = 0 then none else some (mx / mn)
  | _, _ => none

/-- `KPIGenerator._generate_statistical_kpis`: per numeric column a mean
KPI, a variability-index KPI, and — only when the frame has more than one
row — a range-ratio KPI. -/
def statKpis (t : Table) : List KPI :=
  (numericCols t).flatMap (fun c =>
    [⟨"Average " ++ c.name,
      "Average value of " ++ c.name ++ " across all records",
      KKind.meanK, meanQ c⟩,
     ⟨c.name ++ " Variability Index",
      "Coefficient of variation for " ++ c.name ++ " to measure relative variability",
      KKind.varbK, varbVal c⟩]
    ++ (if 1 < nRows t then
      [⟨c.name ++ " Range Ratio",
        "Ratio of maximum to minimum values in " ++ c.name,
        KKind.rangeK, rangeVal c⟩]
    else []))

/-- Total non-null cell count of the frame (`data.count().sum()`). -/
def nonNullTotal (t : Table) : ℕ := (t.map nonNullCount).sum

/-- `KPIGenerator._generate_performance_kpis`. -/
def perfKpis (t : Table) : List KPI :=
  [⟨"Data Volume Index", "Total number of records in the dataset",
    KKind.volumeK, some (nRows t : ℚ)⟩,
   ⟨"Data Density Score", "Percentage of non-null values across all fields",
    KKind.densityK,
    if totalCellsF t = 0 then none
    else some ((nonNullTotal t : ℚ) / (totalCellsF t : ℚ) * 100)⟩]
  ++ (catCols t).map (fun c =>
    ⟨c.name ++ " Diversity Index",
     "Ratio of unique values to total values in " ++ c.name,
     KKind.diversityK,
     if nRows t = 0 then none
     else some ((nuniqueCol c : ℚ) / (nRows t : ℚ))⟩)

/-- `len(data.dropna())`: rows with no null in any column. -/
def completeRows (t : Table) : ℕ :=
  ((List.range (nRows t)).filter
    (fun i => t.all (fun c => (cellAt c i).isSome))).length

/-- Per-column term of the Numerical Data Consistency Score:
`std / mean` when the mean is nonzero and defined, else the literal `0`;
a NaN std propagates NaN.  Encoded as `sign(mean) * var / mean ^ 2`. -/
def covTerm (c : Column) : Option ℚ :=
  match meanQ c with
  | none => some 0
  | some m =>
    if m = 0 then some 0
    else
      match var1Q c with
      | none => none
      | some v => some ((if 0 < m then 1 else -1) * v / m ^ 2)

/-- `np.mean` over the per-column consistency terms: NaN when any term is
NaN, otherwise the arithmetic mean. -/
def consistencyVal (t : Table) : Option ℚ :=
  let terms := (numericCols t).map covTerm
  if terms.any (fun o => o.isNone) then none
  else some ((terms.filterMap id).sum / (terms.length : ℚ))

/-- `KPIGenerator._generate_quality_kpis`. -/
def qualityKpis (t : Table) : List KPI :=
  [⟨"Data Completeness Rate", "Percentage of complete records (no missing values)",
    KKind.completenessK,
    if nRows t = 0 then none
    else some ((completeRows t : ℚ) / (nRows t : ℚ) * 100)⟩,
   ⟨"Data Uniqueness Rate", "Percentage of unique records in the dataset",
    KKind.uniquenessK,
    if nRows t = 0 then none
    else some (((nRows t : ℚ) - (dupCount t : ℚ)) / (nRows t : ℚ) * 100)⟩]
  ++ (if numericCols t ≠ [] then
    [⟨"Numerical Data Consistency Score",
      "Average coefficient of variation across all numerical columns",
      KKind.consistencyK, consistencyVal t⟩]
  else [])

/-- `Series.min()` of a datetime column. -/
def minZ (c : Column) : Option ℤ :=
  match (dtData c).filterMap id with
  | [] => none
  | v :: vs => some (vs.foldl min v)

/-- `Series.max()` of a datetime column. -/
def maxZ (c : Column) : Option ℤ :=
  match (dtData c).filterMap id with
  | [] => none
  | v :: vs => some (vs.foldl max v)

/-- `(max - min).days` of a datetime column (datetimes are modelled as
whole days, so the difference is exact). -/
def spanVal (c : Column) : Option ℚ :=
  match maxZ c, minZ c with
  | some mx, some mn => some ((mx - mn : ℤ) : ℚ)
  | _, _ => none

/-- `len(data) / max(1, (max - min).days)`. -/
def freqVal (t : Table) (c : Column) : Option ℚ :=
  match maxZ c, minZ c with
  | some mx, some mn => some ((nRows t : ℚ) / ((max 1 (mx - mn) : ℤ) : ℚ))
  | _, _ => none

/-- Row order produced by `sort_values(date_column)`: ascending by the
date key with nulls last (modelled with a stable sort; pandas' default
quicksort agrees except for the arbitrary order of tied keys, which the
source never pins down). -/
def dateLe (a b : Option ℤ × Option ℚ) : Prop :=
  match a.1, b.1 with
  | some x, some y => x ≤ y
  | some _, none => True
  | none, some _ => False
  | none, none => True

instance : DecidableRel dateLe := fun a b => by
  unfold dateLe
  match a.1, b.1 with
  | some x, some y => exact inferInstanceAs (Decidable (x ≤ y))
  | some _, none => exact inferInstanceAs (Decidable True)
  | none, some _ => exact inferInstanceAs (Decidable False)
  | none, none => exact inferInstanceAs (Decidable True)

/-- `KPIGenerator._calculate_growth_rate`: sort the rows of the (date,
numeric) projection by date, then
`(last - first) / first * 100` guarded by `first != 0` and both ends
non-null (a NaN `first` fails the `isna` guard; note `NaN != 0` is true in
Python, so the guard order is immaterial). -/
def growthVal (t : Table) (nc dc : Column) : Option ℚ :=
  let rows := (List.range (nRows t)).map
    (fun i => ((dtData dc).getD i none, (numData nc).getD i none))
  let sorted := List.insertionSort dateLe rows
  match sorted.head?, sorted.getLast? with
  | some (_, some f), some (_, some l) =>
    if f = 0 then none else some ((l - f) / f * 100)
  | _, _ => none

/-- `KPIGenerator._generate_time_based_kpis`. -/
def timeKpis (t : Table) : List KPI :=
  (dtCols t).flatMap (fun c =>
    [⟨c.name ++ " Time Span", "Total time period covered by " ++ c.name,
      KKind.spanK, spanVal c⟩,
     ⟨c.name ++ " Data Frequency",
      "Average number of records per day in " ++ c.name,
      KKind.freqK, freqVal t c⟩])
  ++ (if numericCols t ≠ [] ∧ dtCols t ≠ [] then
    (numericCols t).flatMap (fun nc =>
      (dtCols t).map (fun dc =>
        ⟨nc.name ++ " Growth Rate",
         "Average change in " ++ nc.name ++ " over time period in " ++ dc.name,
         KKind.growthK, growthVal t nc dc⟩))
  else [])

/-- Does the character list `l` start with the character list `p`? -/
def startsWithL : List Char → List Char → Bool
  | _, [] => true
  | [], _ :: _ => false
  | a :: l, b :: p => a = b && startsWithL l p

/-- Does the character list `l` contain `p` as a contiguous run
(Python's `p in l` on strings)? -/
def hasSub : List Char → List Char → Bool
  | l, p =>
    startsWithL l p ||
      match l with
      | [] => false
      | _ :: l' => hasSub l' p

/-- Python's `str.lower()` (character-wise, as for the ASCII names and
values this code handles). -/
def strToLower (s : String) : String := String.mk (s.data.map Char.toLower)

/-- Python's `str.upper()` (character-wise). -/
def strToUpper (s : String) : String := String.mk (s.data.map Char.toUpper)

/-- Python's `keyword in col.lower()`: case-insensitive substring test of
a keyword against a column name. -/
def lowContains (s pat : String) : Bool := hasSub (strToLower s).data pat.data

/-- Keywords marking a revenue-like column name. -/
def revenueKeys : List String :=
  ["revenue", "sales", "income", "amount", "value", "price"]

/-- Keywords marking a count-like column name. -/
def countKeys : List String := ["count", "quantity", "qty", "number", "num"]

/-- Keywords marking a customer-like column name. -/
def customerKeys : List String := ["customer", "user", "client", "member"]

/-- Keywords marking a status-like column name. -/
def statusKeys : List String := ["status", "result", "outcome"]

/-- The fixed success-indicator set of `_calculate_success_rate`. -/
def successKeywords : List String :=
  ["success", "complete", "approved", "yes", "true", "1", "active", "confirmed"]

/-- `KPIGenerator._calculate_success_rate`: share of non-null values whose
lowercased string form is a success keyword, ×100; `0` on an empty or
all-null column (and on any exception, none of which the model can raise). -/
def successRate (c : Column) : ℚ :=
  let nn := (catData c).filterMap id
  if nn.length = 0 then 0
  else ((nn.countP (fun v => successKeywords.contains (strToLower v))) : ℚ)
    / (nn.length : ℚ) * 100

/-- The categorical columns whose name contains a status keyword, in table
order (`_generate_business_kpis` computes this list twice and uses its
first element). -/
def statusCols (t : Table) : List Column :=
  (catCols t).filter (fun c => statusKeys.any (fun k => lowContains c.name k))

/-- `KPIGenerator._generate_business_kpis`: revenue-keyword columns that
are numeric get a Total and an Average-per-Record KPI, count-keyword
numeric columns a Total KPI, the first customer-keyword column a diversity
KPI, and the first status-keyword categorical column a success-rate KPI. -/
def businessKpis (t : Table) : List KPI :=
  (t.filter (fun c => revenueKeys.any (fun k => lowContains c.name k))).flatMap
    (fun c =>
      if isNumC c then
        [⟨"Total " ++ c.name, "Sum of all " ++ c.name ++ " values",
          KKind.totalK, some ((numData c).filterMap id).sum⟩,
         ⟨"Average " ++ c.name ++ " per Record",
          "Average " ++ c.name ++ " value per transaction/record",
          KKind.avgRecK, meanQ c⟩]
      else [])
  ++ (t.filter (fun c => countKeys.any (fun k => lowContains c.name k))).flatMap
    (fun c =>
      if isNumC c then
        [⟨"Total " ++ c.name, "Sum of all " ++ c.name ++ " values",
          KKind.totalK, some ((numData c).filterMap id).sum⟩]
      else [])
  ++ (match t.filter (fun c => customerKeys.any (fun k => lowContains c.name k)) with
    | [] => []
    | c :: _ =>
      [⟨"Customer/User Diversity", "Number of unique customers/users in the dataset",
        KKind.custDivK, some (nuniqueCol c : ℚ)⟩])
  ++ (match statusCols t with
    | [] => []
    | c :: _ =>
      [⟨c.name ++ " Success Rate",
        "Percentage of successful outcomes in " ++ c.name,
        KKind.successK, some (successRate c)⟩])

/-- `KPIGenerator.generate_kpi_suggestions`: the category catalog, in the
fixed insertion order of the source's dict. -/
def kpiSuggestions (t : Table) : List (String × List KPI) :=
  (if numericCols t ≠ [] then [("Statistical KPIs", statKpis t)] else [])
  ++ [("Performance KPIs", perfKpis t), ("Data Quality KPIs", qualityKpis t)]
  ++ (if dtCols t ≠ [] then [("Time-based KPIs", timeKpis t)] else [])
  ++ [("Business KPIs", businessKpis t)]

/-- Per-column identifier test of `detect_data_patterns`:
`nunique() == len(data) or col.lower() in ['id','index','key'] or
'id' in col.lower()`. -/
def idCondition (t : Table) (c : Column) : Bool :=
  nuniqueCol c == nRows t
    || ["id", "index", "key"].contains (strToLower c.name)
    || lowContains c.name "id"

/-- Result of `detect_data_patterns`; a dict key is present exactly when
the corresponding list here is nonempty. -/
structure Patterns where
  timeSeries : List String
  idColumns : List String
  potentialCategorical : List String
deriving DecidableEq

/-- `DataAnalyzer.detect_data_patterns`. -/
def detectDataPatterns (t : Table) : Patterns :=
  { timeSeries := (dtCols t).map (fun c => c.name)
    idColumns := (t.filter (idCondition t)).map (fun c => c.name)
    potentialCategorical :=
      ((numericCols t).filter
        (fun c => nuniqueCol c ≤ 10 && 1 < nuniqueCol c)).map (fun c => c.name) }

/-- The identifier condition as the spec's sentence words it: distinct
count equals row count, or the name contains "id", "index" or "key".
Written from the spec, not the source, to be compared against
`idCondition`. -/
def specIdCondition (t : Table) (c : Column) : Bool :=
  nuniqueCol c == nRows t
    || hasSub c.name.data "id".data
    || hasSub c.name.data "index".data
    || hasSub c.name.data "key".data

/-- A line of `-` or `=` characters of the given length. -/
def lineOf (ch : Char) (n : ℕ) : String := String.mk (List.replicate n ch)

/-- Rendering of a possibly-NaN number in an f-string (`nan` for NaN;
exact-rational rendering abstracts Python float formatting). -/
def optStr (o : Option ℚ) : String :=
  match o with
  | none => "nan"
  | some q => toString q

/-- The `1. BASIC INFORMATION` body: `get_basic_info` rendered as
`key: value` lines in dict order.  The deep memory estimate of pandas
depends on the runtime, so the reported megabyte figure enters the model
as the parameter `memMB`. -/
def basicInfoLines (t : Table) (memMB : ℚ) : List String :=
  ["Total Rows: " ++ toString (nRows t),
   "Total Columns: " ++ toString t.length,
   "Memory Usage (MB): " ++ toString memMB,
   "Numerical Columns: " ++ toString (numericCols t).length,
   "Categorical Columns: " ++ toString (catCols t).length,
   "DateTime Columns: " ++ toString (dtCols t).length]

/-- The `2. DATA QUALITY METRICS` body: `get_data_quality_metrics`
rendered as `key: value` lines in dict order. -/
def qualityLines (t : Table) : List String :=
  let q := getDataQualityMetrics t
  ["Total Cells: " ++ toString q.totalCells,
   "Missing Cells: " ++ toString q.missingCells,
   "Missing Percentage: " ++ optStr q.missingPct,
   "Duplicate Rows: " ++ toString q.dupRows,
   "Duplicate Percentage: " ++ optStr q.dupPct,
   "Data Completeness: " ++ optStr q.completeness]

/-- The `3. MISSING VALUES ANALYSIS` body. -/
def missingLines (t : Table) : List String :=
  match analyzeMissingValues t with
  | [] => ["No missing values found."]
  | ms => ms.map (fun e =>
      e.1 ++ ": " ++ toString e.2.1 ++ " missing (" ++ toString (round2 e.2.2) ++ "%)")

/-- The `4. KPI RECOMMENDATIONS` body: per category a blank-prefixed
upper-cased heading, then one bullet line per KPI. -/
def kpiLines (t : Table) : List String :=
  (kpiSuggestions t).flatMap (fun p =>
    ("\n" ++ strToUpper p.1 ++ ":") :: p.2.map (fun k =>
      "  • " ++ k.name ++ ": " ++ k.descr))

/-- The full line sequence of `generate_analysis_report`; `ts` is the
`pd.Timestamp.now()` string read at run time. -/
def reportLines (t : Table) (ts : String) (memMB : ℚ) : List String :=
  [lineOf '=' 60, "EXCEL DATA ANALYSIS REPORT", lineOf '=' 60,
   "Generated on: " ++ ts, "",
   "1. BASIC INFORMATION", lineOf '-' 25]
  ++ basicInfoLines t memMB ++ [""]
  ++ ["2. DATA QUALITY METRICS", lineOf '-' 30]
  ++ qualityLines t ++ [""]
  ++ ["3. MISSING VALUES ANALYSIS", lineOf '-' 35]
  ++ missingLines t ++ [""]
  ++ ["4. KPI RECOMMENDATIONS", lineOf '-' 25]
  ++ kpiLines t

/-- `app.generate_analysis_report`: the lines joined with newlines. -/
def generateAnalysisReport (t : Table) (ts : String) (memMB : ℚ) : String :=
  String.intercalate "\n" (reportLines t ts memMB)

/-- `n² ·` population variance of the non-null values of a numeric column:
the factor of the squared correlation denominator contributed by the column
against itself.  It is zero exactly when the column has zero variance (or
fewer than two non-null values). -/
def selfVarN (c : Column) : ℚ := sDen1 (pairsOf (numData c) (numData c))

/-- One numeric column, zero rows: the zero-cell table of claim C1. -/
def tEmptyRows : Table := [⟨"a", ColVals.num []⟩]

/-- Two weakly correlated numeric columns (r = 0.5): below the default
threshold 0.7, so `find_strong_correlations` keeps no pair. -/
def tWeakCorr : Table :=
  [⟨"x", ColVals.num [some 1, some 2, some 3]⟩,
   ⟨"y", ColVals.num [some 1, some 3, some 2]⟩]

/-- A single numeric column: fewer than two numeric columns. -/
def tOneNum : Table := [⟨"x", ColVals.num [some 1]⟩]

/-- The 3-row sale_amount/status table of claim C4 and the spec's §8. -/
def tSales : Table :=
  [⟨"sale_amount", ColVals.num [some 100, some 200, some 300]⟩,
   ⟨"status", ColVals.cat [some "success", some "failed", some "success"]⟩]

/-- A column named `key_col` whose distinct count differs from the row
count: the claim-C8 counterexample table. -/
def tKeyCol : Table := [⟨"key_col", ColVals.num [some 1, some 1, some 2]⟩]

/-- The single `id` column of 5 unique sequential integers from the
spec's §8. -/
def tIdSeq : Table :=
  [⟨"id", ColVals.num [some 1, some 2, some 3, some 4, some 5]⟩]

/-- The example numeric column of claim C2. -/
def exOutlierCol : List (Option ℚ) :=
  [some 1, some 2, some 3, some 4, some 5, some 100]

/-- Two perfectly correlated two-row numeric columns, for the C6 witness. -/
def tCorrEx : Table :=
  [⟨"x", ColVals.num [some 1, some 2]⟩, ⟨"y", ColVals.num [some 1, some 2]⟩]

instance {ε α : Type} [DecidableEq ε] [DecidableEq α] : DecidableEq (Except ε α) :=
  fun a b =>
    match a, b with
    | Except.error x, Except.error y =>
      if h : x = y then Decidable.isTrue (by rw [h])
      else Decidable.isFalse (by intro hc; injection hc; contradiction)
    | Except.ok x, Except.ok y =>
      if h : x = y then Decidable.isTrue (by rw [h])
      else Decidable.isFalse (by intro hc; injection hc; contradiction)
    | Except.error _, Except.ok _ => Decidable.isFalse (by intro hc; cases hc)
    | Except.ok _, Except.error _ => Decidable.isFalse (by intro hc; cases hc)

/-- C1: on a table whose cell count is zero (here: one column, zero rows)
`get_data_quality_metrics` divides by zero: its `Missing Percentage` and
`Data Completeness` come out as float NaN (`none`), not as the sentinel the
spec demands, so the 100/0 identity the claim states for this path does
not hold; nothing is raised, the NaN simply propagates into the result. -/
theorem quality_metrics_zero_cells_nan :
    getDataQualityMetrics tEmptyRows =
      { totalCells := 0, missingCells := 0, missingPct := none,
        dupRows := 0, dupPct := none, completeness := none } := by
  decide

/-- C3: with two numeric columns whose correlation (0.5) stays below the
0.7 threshold (0.49 in the encoded domain), `find_strong_correlations`
raises `KeyError` — `pd.DataFrame([]).sort_values('Correlation', ...)` on
the empty record list — instead of returning the explicitly-empty result
the claim states; with fewer than two numeric columns it does return the
empty result. -/
theorem strong_correlations_empty_raises :
    findStrongCorrelations tWeakCorr (49 / 100) = Except.error PyErr.keyError
    ∧ findStrongCorrelations tOneNum (49 / 100) = Except.ok [] := by
  constructor
  · have hcorr : corrS [some 1, some 2, some 3] [some 1, some 3, some 2] = some (1 / 4) := by
      norm_num [corrS, pairsOf, sNum, sDen1, sDen2, List.zip_cons_cons,
        List.filterMap_cons, List.filterMap_nil]
    have habs : |(1 : ℚ) / 4| = 1 / 4 := by
      rw [abs_of_pos]
      norm_num
    have hscan : strongScan tWeakCorr (49 / 100) = [] := by
      norm_num [strongScan, numericCols, tWeakCorr, isNumC, List.range_succ, numData, hcorr,
        habs]
    obtain ⟨M, hM⟩ : ∃ M, corrMatrix tWeakCorr = some M := by
      simp [corrMatrix, numericCols, tWeakCorr, isNumC]
    unfold findStrongCorrelations
    rw [hM]
    simp [hscan]
  · simp [findStrongCorrelations, corrMatrix, numericCols, tOneNum, isNumC]

/-- Helper: with the `iqr` method the per-column loop never errors and
keeps exactly the columns whose outlier list is nonempty. -/
theorem detectOutliersCols_iqr_eq (cols : List Column) :
    detectOutliersCols cols "iqr" = Except.ok (cols.filterMap (fun c =>
      if iqrOutliers (numData c) = [] then none
      else some (c.name, iqrOutliers (numData c)))) := by
  induction cols with
  | nil => rfl
  | cons c cs ih =>
    simp only [detectOutliersCols, if_pos rfl, ih, List.filterMap_cons]
    by_cases h : iqrOutliers (numData c) = []
    · simp [h]
    · simp [h]

/-- Helper: the z-score branch never reads the unassigned variable. -/
theorem zscoreOutliers_ne_unbound (vs : List (Option ℚ)) :
    zscoreOutliers vs ≠ Except.error PyErr.unboundLocal := by
  simp only [zscoreOutliers]
  split_ifs <;> simp

/-- Helper: with the `zscore` method the loop may raise `IndexError`, but
never the unbound-variable fault. -/
theorem detectOutliersCols_zscore_ne_unbound (cols : List Column) :
    detectOutliersCols cols "zscore" ≠ Except.error PyErr.unboundLocal := by
  induction cols with
  | nil =>
    intro hc
    cases hc
  | cons c cs ih =>
    simp only [detectOutliersCols, if_true]
    cases hz : zscoreOutliers (numData c) with
    | error e =>
      intro hc
      injection hc with h
      subst h
      exact zscoreOutliers_ne_unbound (numData c) hz
    | ok outs =>
      cases hrest : detectOutliersCols cs "zscore" with
      | error e =>
        intro hc
        injection hc with h
        subst h
        exact ih hrest
      | ok rest =>
        intro hc
        cases hc

/-- C10: `detect_outliers` on a table with at least one numeric column
reaches the branch where the per-column `outliers` variable was never
assigned — and therefore faults with `UnboundLocalError` — exactly when
the method string is neither `iqr` nor `zscore`; under that precondition
the fault is unreachable. -/
theorem detect_outliers_method_total (t : Table) (m : String)
    (h : numericCols t ≠ []) :
    detectOutliers t m = Except.error PyErr.unboundLocal ↔
      (m ≠ "iqr" ∧ m ≠ "zscore") := by
  constructor
  · intro he
    constructor
    · intro hm
      subst hm
      rw [detectOutliers, detectOutliersCols_iqr_eq] at he
      cases he
    · intro hm
      subst hm
      exact detectOutliersCols_zscore_ne_unbound (numericCols t) he
  · rintro ⟨h1, h2⟩
    obtain ⟨c, cs, hc⟩ : ∃ c cs, numericCols t = c :: cs := by
      cases hcs : numericCols t with
      | nil => exact absurd hcs h
      | cons c cs => exact ⟨c, cs, rfl⟩
    rw [detectOutliers, hc]
    simp only [detectOutliersCols, if_neg h1, if_neg h2]

/-- Witness for C10 at a concrete table and the method string `mean`. -/
theorem detect_outliers_method_total_witness :
    detectOutliers [⟨"a", ColVals.num [some 1]⟩] "mean" =
      Except.error PyErr.unboundLocal :=
  (detect_outliers_method_total [⟨"a", ColVals.num [some 1]⟩] "mean"
    (by decide)).mpr ⟨by decide, by decide⟩

/-- C5: `analyze_missing_values` returns exactly the columns whose missing
count is positive, as (name, count, percentage) entries sorted descending
by missing count; the empty sequence when nothing is missing; re-running
on the unchanged table gives the same sequence. -/
theorem missing_value_report_spec (t : Table) :
    (∀ c ∈ t, 0 < missingCount c →
      (c.name, missingCount c, (missingCount c : ℚ) / (nRows t : ℚ) * 100) ∈
        analyzeMissingValues t)
    ∧ (∀ e ∈ analyzeMissingValues t, ∃ c ∈ t,
        e = (c.name, missingCount c, (missingCount c : ℚ) / (nRows t : ℚ) * 100)
          ∧ 0 < missingCount c)
    ∧ (analyzeMissingValues t).Sorted relDescMiss
    ∧ ((∀ c ∈ t, missingCount c = 0) → analyzeMissingValues t = [])
    ∧ analyzeMissingValues t = analyzeMissingValues t := by
  simp only [analyzeMissingValues]
  refine ⟨?_, ?_, ?_, ?_, trivial⟩
  · intro c hc hm
    have hmem : (c.name, missingCount c) ∈
        (t.map (fun c => (c.name, missingCount c))).filter (fun p => decide (0 < p.2)) :=
      List.mem_filter.mpr ⟨List.mem_map_of_mem _ hc, by simpa using hm⟩
    rw [if_neg (List.ne_nil_of_mem hmem)]
    exact (List.mem_insertionSort relDescMiss).mpr
      (List.mem_map_of_mem (fun p => (p.1, p.2, (p.2 : ℚ) / (nRows t : ℚ) * 100)) hmem)
  · intro e he
    split at he
    · cases he
    · obtain ⟨p, hp, hpe⟩ :=
        List.mem_map.mp ((List.mem_insertionSort relDescMiss).mp he)
      obtain ⟨hp1, hp2⟩ := List.mem_filter.mp hp
      obtain ⟨c, hc, hcp⟩ := List.mem_map.mp hp1
      refine ⟨c, hc, ?_, ?_⟩
      · rw [← hpe, ← hcp]
      · have := of_decide_eq_true hp2
        rw [← hcp] at this
        exact this
  · split
    · exact List.sorted_nil
    · exact List.sorted_insertionSort relDescMiss _
  · intro hall
    rw [if_pos]
    rw [List.filter_eq_nil_iff]
    intro p hp
    obtain ⟨c, hc, hcp⟩ := List.mem_map.mp hp
    simp [← hcp, hall c hc]

/-- Witness for C5 at a one-column table with one null cell. -/
theorem missing_value_report_spec_witness :
    0 < missingCount ⟨"a", ColVals.num [some 1, none]⟩
    ∧ ("a", missingCount ⟨"a", ColVals.num [some 1, none]⟩,
        (missingCount ⟨"a", ColVals.num [some 1, none]⟩ : ℚ) /
          (nRows [⟨"a", ColVals.num [some 1, none]⟩] : ℚ) * 100) ∈
        analyzeMissingValues [⟨"a", ColVals.num [some 1, none]⟩] :=
  ⟨by decide,
    (missing_value_report_spec [⟨"a", ColVals.num [some 1, none]⟩]).1
      ⟨"a", ColVals.num [some 1, none]⟩ (by simp) (by decide)⟩

/-- Helper: the non-null values of the C2 example column. -/
theorem exOutlierCol_filterMap : exOutlierCol.filterMap id = [1, 2, 3, 4, 5, 100] := by
  norm_num [exOutlierCol, List.filterMap_cons, List.filterMap_nil]

/-- Helper: first quartile of [1,2,3,4,5,100] under linear interpolation. -/
theorem quantile_ex_q1 : quantileL (exOutlierCol.filterMap id) (1 / 4) = some (9 / 4) := by
  rw [exOutlierCol_filterMap]
  have hsort : sortQ [(1 : ℚ), 2, 3, 4, 5, 100] = [1, 2, 3, 4, 5, 100] := by
    norm_num [sortQ, List.insertionSort, List.orderedInsert]
  have hfl : ⌊(1 / 4 : ℚ) * ((([(1 : ℚ), 2, 3, 4, 5, 100].length : ℕ) : ℚ) - 1)⌋ = 1 := by
    rw [Int.floor_eq_iff]
    norm_num
  have ht : (1 : ℤ).toNat = 1 := rfl
  simp only [quantileL, hsort]
  norm_num [hfl, ht, List.getD]

/-- Helper: third quartile of [1,2,3,4,5,100] under linear interpolation
is 4.75 — not the 4.25 the spec asserts. -/
theorem quantile_ex_q3 : quantileL (exOutlierCol.filterMap id) (3 / 4) = some (19 / 4) := by
  rw [exOutlierCol_filterMap]
  have hsort : sortQ [(1 : ℚ), 2, 3, 4, 5, 100] = [1, 2, 3, 4, 5, 100] := by
    norm_num [sortQ, List.insertionSort, List.orderedInsert]
  have hfl : ⌊(3 / 4 : ℚ) * ((([(1 : ℚ), 2, 3, 4, 5, 100].length : ℕ) : ℚ) - 1)⌋ = 3 := by
    rw [Int.floor_eq_iff]
    norm_num
  have ht : (3 : ℤ).toNat = 3 := rfl
  simp only [quantileL, hsort]
  norm_num [hfl, ht, List.getD]

/-- C2 (amended): a non-null value of a numeric column is flagged by the
IQR method iff it lies outside `[Q1 - 1.5·IQR, Q3 + 1.5·IQR]` with
quartiles by linear interpolation; columns with zero outliers are omitted
from the mapping; on [1,2,3,4,5,100] the quartiles are Q1 = 2.25 and
Q3 = 4.75 (so IQR = 2.5 and the upper bound is 8.5, not the spec's
4.25 / 2 / 7.25), and exactly the value 100 is flagged. -/
theorem iqr_outlier_spec :
    (∀ (vs : List (Option ℚ)) (q1 q3 : ℚ),
       quantileL (vs.filterMap id) (1 / 4) = some q1 →
       quantileL (vs.filterMap id) (3 / 4) = some q3 →
       ∀ v : ℚ, v ∈ iqrOutliers vs ↔
         v ∈ vs.filterMap id ∧
           (v < q1 - 3 / 2 * (q3 - q1) ∨ q3 + 3 / 2 * (q3 - q1) < v))
    ∧ (∀ (t : Table) (l : List (String × List ℚ)),
        detectOutliers t "iqr" = Except.ok l →
        (∀ p ∈ l, p.2 ≠ []) ∧
        (∀ c ∈ numericCols t, iqrOutliers (numData c) ≠ [] →
          (c.name, iqrOutliers (numData c)) ∈ l))
    ∧ quantileL (exOutlierCol.filterMap id) (1 / 4) = some (9 / 4)
    ∧ quantileL (exOutlierCol.filterMap id) (3 / 4) = some (19 / 4)
    ∧ iqrOutliers exOutlierCol = [100] := by
  refine ⟨?_, ?_, quantile_ex_q1, quantile_ex_q3, ?_⟩
  · intro vs q1 q3 hq1 hq3 v
    have key : iqrOutliers vs = (vs.filterMap id).filter
        (fun v => decide (v < q1 - 3 / 2 * (q3 - q1) ∨ q3 + 3 / 2 * (q3 - q1) < v)) := by
      simp only [iqrOutliers, hq1, hq3]
    rw [key]
    simp [List.mem_filter]
  · intro t l hl
    rw [detectOutliers, detectOutliersCols_iqr_eq] at hl
    injection hl with hl
    subst hl
    constructor
    · intro p hp
      obtain ⟨c, _, hfc⟩ := List.mem_filterMap.mp hp
      by_cases h : iqrOutliers (numData c) = []
      · rw [if_pos h] at hfc
        cases hfc
      · rw [if_neg h] at hfc
        injection hfc with hfc
        rw [← hfc]
        exact h
    · intro c hc hne
      exact List.mem_filterMap.mpr ⟨c, hc, by rw [if_neg hne]⟩
  · have key : iqrOutliers exOutlierCol = (exOutlierCol.filterMap id).filter
        (fun v => decide (v < 9 / 4 - 3 / 2 * (19 / 4 - 9 / 4)
          ∨ 19 / 4 + 3 / 2 * (19 / 4 - 9 / 4) < v)) := by
      simp only [iqrOutliers, quantile_ex_q1, quantile_ex_q3]
    rw [key, exOutlierCol_filterMap]
    norm_num [List.filter_cons, List.filter_nil]

/-- Counterexample for C2 as frozen: on [1,2,3,4,5,100] the code's third
quartile is 4.75, not the 4.25 the claim (quoting the spec) states. -/
theorem iqr_outlier_spec_counterexample :
    quantileL (exOutlierCol.filterMap id) (3 / 4) = some (19 / 4)
    ∧ (19 / 4 : ℚ) ≠ 17 / 4 :=
  ⟨quantile_ex_q3, by norm_num⟩

/-- Witness for C2 at the example column and the value 100. -/
theorem iqr_outlier_spec_witness :
    (100 : ℚ) ∈ iqrOutliers exOutlierCol ↔
      ((100 : ℚ) ∈ exOutlierCol.filterMap id ∧
        ((100 : ℚ) < 9 / 4 - 3 / 2 * (19 / 4 - 9 / 4)
          ∨ (19 : ℚ) / 4 + 3 / 2 * (19 / 4 - 9 / 4) < 100)) :=
  iqr_outlier_spec.1 exOutlierCol (9 / 4) (19 / 4) quantile_ex_q1 quantile_ex_q3 100

/-- C8 (amended): `detect_data_patterns` flags a column as a likely
identifier iff its distinct count equals the row count, or its lowercased
name is exactly `id`, `index` or `key`, or its lowercased name contains
`id` as a substring (not: contains `index` or `key`); numeric columns with
more than 1 and at most 10 distinct values are reported as potential
categoricals; datetime columns are listed; the function is total; and the
5-row `id` table has `id` flagged. -/
theorem detect_patterns_spec (t : Table) :
    (∀ c ∈ t, idCondition t c = true → c.name ∈ (detectDataPatterns t).idColumns)
    ∧ (∀ nm ∈ (detectDataPatterns t).idColumns,
        ∃ c ∈ t, c.name = nm ∧ idCondition t c = true)
    ∧ (∀ c ∈ numericCols t, 1 < nuniqueCol c → nuniqueCol c ≤ 10 →
        c.name ∈ (detectDataPatterns t).potentialCategorical)
    ∧ (∀ nm ∈ (detectDataPatterns t).potentialCategorical,
        ∃ c ∈ numericCols t, c.name = nm ∧ 1 < nuniqueCol c ∧ nuniqueCol c ≤ 10)
    ∧ (detectDataPatterns t).timeSeries = (dtCols t).map (fun c => c.name)
    ∧ (detectDataPatterns tIdSeq).idColumns = ["id"] := by
  refine ⟨?_, ?_, ?_, ?_, rfl, by decide⟩
  · intro c hc hcond
    exact List.mem_map_of_mem _ (List.mem_filter.mpr ⟨hc, hcond⟩)
  · intro nm hnm
    obtain ⟨c, hcf, hcn⟩ := List.mem_map.mp hnm
    obtain ⟨hct, hcond⟩ := List.mem_filter.mp hcf
    exact ⟨c, hct, hcn, hcond⟩
  · intro c hc h1 h10
    refine List.mem_map_of_mem _ (List.mem_filter.mpr ⟨hc, ?_⟩)
    simp [h1, h10]
  · intro nm hnm
    obtain ⟨c, hcf, hcn⟩ := List.mem_map.mp hnm
    obtain ⟨hct, hcond⟩ := List.mem_filter.mp hcf
    simp only [Bool.and_eq_true, decide_eq_true_eq] at hcond
    exact ⟨c, hct, hcn, hcond.2, hcond.1⟩

/-- Counterexample for C8 as frozen: the column `key_col` (3 rows, 2
distinct values) satisfies the claim's flagging condition — its name
contains "key" — yet the code does not flag it, because the code only
tests exact lowercased membership in {id, index, key} or an `id`
substring. -/
theorem detect_patterns_spec_counterexample :
    ¬ (("key_col" ∈ (detectDataPatterns tKeyCol).idColumns) ↔
      specIdCondition tKeyCol ⟨"key_col", ColVals.num [some 1, some 1, some 2]⟩ = true) := by
  decide

/-- Witness for C8: the `id` column of the 5-row table is flagged. -/
theorem detect_patterns_spec_witness :
    idCondition tIdSeq ⟨"id", ColVals.num [some 1, some 2, some 3, some 4, some 5]⟩ = true
    ∧ "id" ∈ (detectDataPatterns tIdSeq).idColumns :=
  ⟨by decide,
    (detect_patterns_spec tIdSeq).1 ⟨"id", ColVals.num [some 1, some 2, some 3, some 4, some 5]⟩
      (by simp [tIdSeq]) (by decide)⟩

/-- C7: per numeric column the Statistical-KPI family emits a mean KPI and
a variability-index KPI, the latter unavailable (`none`) whenever the
column mean is 0 or undefined; a range-ratio KPI is emitted exactly when
the row count exceeds 1, unavailable whenever the column minimum is 0 or
undefined; each failure is confined to its own KPI record. -/
theorem statistical_kpis_spec (t : Table) (c : Column) (hc : c ∈ numericCols t) :
    (⟨"Average " ++ c.name, "Average value of " ++ c.name ++ " across all records",
       KKind.meanK, meanQ c⟩ : KPI) ∈ statKpis t
    ∧ (⟨c.name ++ " Variability Index",
        "Coefficient of variation for " ++ c.name ++ " to measure relative variability",
        KKind.varbK, varbVal c⟩ : KPI) ∈ statKpis t
    ∧ ((meanQ c = none ∨ meanQ c = some 0) → varbVal c = none)
    ∧ (1 < nRows t →
        (⟨c.name ++ " Range Ratio", "Ratio of maximum to minimum values in " ++ c.name,
          KKind.rangeK, rangeVal c⟩ : KPI) ∈ statKpis t)
    ∧ (¬ 1 < nRows t → ∀ k ∈ statKpis t, k.kind ≠ KKind.rangeK)
    ∧ ((minQ c = none ∨ minQ c = some 0) → rangeVal c = none) := by
  refine ⟨?_, ?_, ?_, ?_, ?_, ?_⟩
  · exact List.mem_flatMap.mpr ⟨c, hc, by simp⟩
  · exact List.mem_flatMap.mpr ⟨c, hc, by simp⟩
  · rintro (h | h) <;> simp [varbVal, h]
  · intro h
    exact List.mem_flatMap.mpr ⟨c, hc, by simp [h]⟩
  · intro h k hk
    obtain ⟨c', _, hk'⟩ := List.mem_flatMap.mp hk
    rw [if_neg h] at hk'
    simp only [List.append_nil, List.mem_cons, List.mem_singleton] at hk'
    rcases hk' with h1 | h1 | h1
    · subst h1
      simp
    · subst h1
      simp
    · cases h1
  · rintro (h | h) <;> cases hmx : maxQ c <;> simp [rangeVal, h, hmx]

/-- Witness for C7 at a two-row numeric column. -/
theorem statistical_kpis_spec_witness :
    (⟨"Average a", "Average value of a across all records",
      KKind.meanK, meanQ ⟨"a", ColVals.num [some 1, some 2]⟩⟩ : KPI) ∈
      statKpis [⟨"a", ColVals.num [some 1, some 2]⟩] :=
  (statistical_kpis_spec [⟨"a", ColVals.num [some 1, some 2]⟩]
    ⟨"a", ColVals.num [some 1, some 2]⟩ (by decide)).1

/-- C4: for a table whose first status-keyword categorical column is `c0`,
the KPI catalog's Business category contains a success-rate KPI for `c0`
and for no other column; its value is the share of non-null values whose
lowercased form is a success keyword, times 100, with the empty/all-null
case yielding 0; on the 3-row sale_amount/status table the value is
200/3 ≈ 66.67. -/
theorem success_rate_kpi_spec (t : Table) (c0 : Column) (rest : List Column)
    (hs : statusCols t = c0 :: rest) :
    ("Business KPIs", businessKpis t) ∈ kpiSuggestions t
    ∧ (⟨c0.name ++ " Success Rate", "Percentage of successful outcomes in " ++ c0.name,
        KKind.successK, some (successRate c0)⟩ : KPI) ∈ businessKpis t
    ∧ (∀ k ∈ businessKpis t, k.kind = KKind.successK →
        k = ⟨c0.name ++ " Success Rate", "Percentage of successful outcomes in " ++ c0.name,
          KKind.successK, some (successRate c0)⟩)
    ∧ successRate c0 = (if ((catData c0).filterMap id).length = 0 then 0
        else (((catData c0).filterMap id).countP
            (fun v => successKeywords.contains (strToLower v)) : ℚ) /
          (((catData c0).filterMap id).length : ℚ) * 100)
    ∧ successRate ⟨"status", ColVals.cat [some "success", some "failed", some "success"]⟩ = 200 / 3
    ∧ (⟨"status Success Rate", "Percentage of successful outcomes in status",
        KKind.successK, some (200 / 3)⟩ : KPI) ∈ businessKpis tSales := by
  have h200 : successRate ⟨"status", ColVals.cat [some "success", some "failed", some "success"]⟩
      = 200 / 3 := by
    have hcnt : (((catData ⟨"status", ColVals.cat [some "success", some "failed", some "success"]⟩).filterMap id).countP
        (fun v => successKeywords.contains (strToLower v))) = 2 := by decide
    have hlen : ((catData ⟨"status", ColVals.cat [some "success", some "failed", some "success"]⟩).filterMap id).length = 3 := by decide
    simp only [successRate, hcnt, hlen]
    norm_num
  refine ⟨?_, ?_, ?_, by simp [successRate], h200, ?_⟩
  · simp [kpiSuggestions]
  · simp only [businessKpis, hs]
    refine List.mem_append.mpr (Or.inr ?_)
    simp
  · intro k hk hkind
    simp only [businessKpis, hs, List.mem_append] at hk
    rcases hk with ((hk | hk) | hk) | hk
    · obtain ⟨c', _, hk'⟩ := List.mem_flatMap.mp hk
      by_cases hn : isNumC c'
      · rw [if_pos hn] at hk'
        simp only [List.mem_cons, List.mem_singleton, List.not_mem_nil, or_false] at hk'
        rcases hk' with h1 | h1 <;> subst h1 <;> simp at hkind
      · rw [if_neg hn] at hk'
        cases hk'
    · obtain ⟨c', _, hk'⟩ := List.mem_flatMap.mp hk
      by_cases hn : isNumC c'
      · rw [if_pos hn] at hk'
        have h1 := List.mem_singleton.mp hk'
        subst h1
        simp at hkind
      · rw [if_neg hn] at hk'
        cases hk'
    · cases hcust : t.filter (fun c => customerKeys.any (fun k => lowContains c.name k)) with
      | nil =>
        rw [hcust] at hk
        cases hk
      | cons cc ccs =>
        rw [hcust] at hk
        have h1 := List.mem_singleton.mp hk
        subst h1
        simp at hkind
    · exact List.mem_singleton.mp hk
  · have hst : statusCols tSales =
        [⟨"status", ColVals.cat [some "success", some "failed", some "success"]⟩] := by decide
    simp only [businessKpis, hst]
    refine List.mem_append.mpr (Or.inr ?_)
    simp [h200]

/-- Witness for C4 at the 3-row sale_amount/status table. -/
theorem success_rate_kpi_spec_witness :
    (⟨"status Success Rate", "Percentage of successful outcomes in status",
      KKind.successK,
      some (successRate ⟨"status", ColVals.cat [some "success", some "failed", some "success"]⟩)⟩ :
        KPI) ∈ businessKpis tSales :=
  (success_rate_kpi_spec tSales
    ⟨"status", ColVals.cat [some "success", some "failed", some "success"]⟩ []
    (by decide)).2.1

set_option maxRecDepth 10000 in
/-- Counterexample for C9 as frozen: the report embeds the wall-clock
timestamp (`Generated on: {pd.Timestamp.now()}`), so two runs of the
formatter over the same table outputs are not byte-identical — any two
runs at different clock readings differ. -/
theorem report_determinism_counterexample :
    generateAnalysisReport [] "2024-01-01 00:00:00" 0 ≠
      generateAnalysisReport [] "2024-01-01 00:00:01" 0 := by
  decide

/-- C9 (amended): for a fixed table, timestamp reading and memory figure,
the report is a pure function — two runs produce byte-identical text —
with the four sections in the fixed order Basic Information, Data Quality
Metrics, Missing Values Analysis, KPI Recommendations, and one
`  • name: description` bullet line per generated KPI. -/
theorem report_format_spec (t : Table) (ts : String) (memMB : ℚ) :
    generateAnalysisReport t ts memMB = generateAnalysisReport t ts memMB
    ∧ (∃ a b c d e : List String, reportLines t ts memMB =
        a ++ "1. BASIC INFORMATION" :: (b ++ "2. DATA QUALITY METRICS" ::
          (c ++ "3. MISSING VALUES ANALYSIS" :: (d ++ "4. KPI RECOMMENDATIONS" :: e))))
    ∧ (∀ cat ks k, (cat, ks) ∈ kpiSuggestions t → k ∈ ks →
        ("  • " ++ k.name ++ ": " ++ k.descr) ∈ reportLines t ts memMB) := by
  refine ⟨rfl, ?_, ?_⟩
  · refine ⟨[lineOf '=' 60, "EXCEL DATA ANALYSIS REPORT", lineOf '=' 60,
        "Generated on: " ++ ts, ""],
      lineOf '-' 25 :: (basicInfoLines t memMB ++ [""]),
      lineOf '-' 30 :: (qualityLines t ++ [""]),
      lineOf '-' 35 :: (missingLines t ++ [""]),
      lineOf '-' 25 :: kpiLines t, ?_⟩
    simp [reportLines]
  · intro cat ks k h1 h2
    have hmem : ("  • " ++ k.name ++ ": " ++ k.descr) ∈ kpiLines t :=
      List.mem_flatMap.mpr ⟨(cat, ks), h1,
        List.mem_cons_of_mem _ (List.mem_map_of_mem _ h2)⟩
    simp only [reportLines]
    exact List.mem_append.mpr (Or.inr hmem)

/-- Witness for C9 at the empty table: the Data Volume Index bullet line
appears in the report. -/
theorem report_format_spec_witness :
    ("  • " ++ "Data Volume Index" ++ ": " ++ "Total number of records in the dataset") ∈
      reportLines [] "2024-01-01 00:00:00" 0 :=
  (report_format_spec [] "2024-01-01 00:00:00" 0).2.2 "Performance KPIs" (perfKpis [])
    ⟨"Data Volume Index", "Total number of records in the dataset", KKind.volumeK,
      some ((nRows ([] : Table)) : ℚ)⟩
    (by simp [kpiSuggestions, numericCols, dtCols]) (by simp [perfKpis])

/-- Helper: zipping a list with itself duplicates each element. -/
theorem zip_self_eq (l : List (Option ℚ)) : List.zip l l = l.map (fun a => (a, a)) := by
  induction l with
  | nil => rfl
  | cons a l ih => simp [List.zip_cons_cons, ih]

/-- Helper: the pairwise-complete pairs of a column with itself are its
non-null values, duplicated. -/
theorem pairsOf_self (x : List (Option ℚ)) :
    pairsOf x x = (x.filterMap id).map (fun a => (a, a)) := by
  rw [pairsOf, zip_self_eq, List.filterMap_map]
  induction x with
  | nil => rfl
  | cons o l ih =>
    cases o with
    | none => simpa using ih
    | some a => simpa using ih

/-- Helper: swapping the two columns swaps every pair. -/
theorem pairsOf_swap_eq (x y : List (Option ℚ)) :
    pairsOf y x = (pairsOf x y).map Prod.swap := by
  rw [pairsOf, pairsOf, ← List.zip_swap x y, List.filterMap_map, List.map_filterMap]
  apply List.filterMap_congr
  intro p _
  rcases p with ⟨o1, o2⟩
  cases o1 <;> cases o2 <;> rfl

/-- Helper: the correlation numerator is symmetric. -/
theorem sNum_swap (ps : List (ℚ × ℚ)) : sNum (ps.map Prod.swap) = sNum ps := by
  unfold sNum
  simp only [List.length_map, List.map_map]
  have h1 : ((fun p : ℚ × ℚ => p.1 * p.2) ∘ Prod.swap) = fun p : ℚ × ℚ => p.1 * p.2 := by
    funext p
    exact mul_comm _ _
  have h2 : ((fun p : ℚ × ℚ => p.1) ∘ Prod.swap) = fun p : ℚ × ℚ => p.2 := rfl
  have h3 : ((fun p : ℚ × ℚ => p.2) ∘ Prod.swap) = fun p : ℚ × ℚ => p.1 := rfl
  rw [h1, h2, h3]
  ring

/-- Helper: the first denominator factor of the swapped pairs is the
second factor of the originals. -/
theorem sDen1_swap (ps : List (ℚ × ℚ)) : sDen1 (ps.map Prod.swap) = sDen2 ps := by
  unfold sDen1 sDen2
  simp only [List.length_map, List.map_map]
  have h1 : ((fun p : ℚ × ℚ => p.1 ^ 2) ∘ Prod.swap) = fun p : ℚ × ℚ => p.2 ^ 2 := rfl
  have h2 : ((fun p : ℚ × ℚ => p.1) ∘ Prod.swap) = fun p : ℚ × ℚ => p.2 := rfl
  rw [h1, h2]

/-- Helper: the second denominator factor of the swapped pairs is the
first factor of the originals. -/
theorem sDen2_swap (ps : List (ℚ × ℚ)) : sDen2 (ps.map Prod.swap) = sDen1 ps := by
  unfold sDen1 sDen2
  simp only [List.length_map, List.map_map]
  have h1 : ((fun p : ℚ × ℚ => p.2 ^ 2) ∘ Prod.swap) = fun p : ℚ × ℚ => p.1 ^ 2 := rfl
  have h2 : ((fun p : ℚ × ℚ => p.2) ∘ Prod.swap) = fun p : ℚ × ℚ => p.1 := rfl
  rw [h1, h2]

/-- Helper: Pearson correlation (in the encoded domain) is symmetric. -/
theorem corrS_symm (x y : List (Option ℚ)) : corrS x y = corrS y x := by
  simp only [corrS]
  rw [pairsOf_swap_eq x y, sNum_swap, sDen1_swap, sDen2_swap,
    mul_comm (sDen2 (pairsOf x y)) (sDen1 (pairsOf x y))]

/-- Helper (Cauchy-Schwarz): `(Σ x)² ≤ n · Σ x²` over a list. -/
theorem sq_sum_le_card_mul (l : List ℚ) :
    l.sum ^ 2 ≤ (l.length : ℚ) * (l.map (fun x => x ^ 2)).sum := by
  induction l with
  | nil => simp
  | cons x l ih =>
    rcases Nat.eq_zero_or_pos l.length with h0 | h0
    · have hl : l = [] := List.length_eq_zero.mp h0
      subst hl
      simp
    · have h1 : (1 : ℚ) ≤ (l.length : ℚ) := by exact_mod_cast h0
      simp only [List.sum_cons, List.map_cons, List.length_cons]
      push_cast
      nlinarith [ih, sq_nonneg ((l.length : ℚ) * x - l.sum), h1,
        mul_le_mul_of_nonneg_left ih
          (by positivity : (0 : ℚ) ≤ (l.length : ℚ) + 1)]

/-- Helper: on the diagonal the numerator and both denominator factors
coincide. -/
theorem stats_diag (l : List ℚ) :
    sNum (l.map (fun a => (a, a))) =
        (l.length : ℚ) * (l.map (fun x => x ^ 2)).sum - l.sum ^ 2
    ∧ sDen1 (l.map (fun a => (a, a))) =
        (l.length : ℚ) * (l.map (fun x => x ^ 2)).sum - l.sum ^ 2
    ∧ sDen2 (l.map (fun a => (a, a))) =
        (l.length : ℚ) * (l.map (fun x => x ^ 2)).sum - l.sum ^ 2 := by
  have hmul : (fun a : ℚ => a * a) = fun a : ℚ => a ^ 2 := by
    funext a
    exact (pow_two a).symm
  unfold sNum sDen1 sDen2
  simp only [List.length_map, List.map_map]
  have h1 : ((fun p : ℚ × ℚ => p.1 * p.2) ∘ fun a : ℚ => (a, a)) = fun a : ℚ => a ^ 2 := by
    rw [← hmul]
    rfl
  have h2 : ((fun p : ℚ × ℚ => p.1) ∘ fun a : ℚ => (a, a)) = fun a : ℚ => a := rfl
  have h3 : ((fun p : ℚ × ℚ => p.2) ∘ fun a : ℚ => (a, a)) = fun a : ℚ => a := rfl
  have h4 : ((fun p : ℚ × ℚ => p.1 ^ 2) ∘ fun a : ℚ => (a, a)) = fun a : ℚ => a ^ 2 := rfl
  have h5 : ((fun p : ℚ × ℚ => p.2 ^ 2) ∘ fun a : ℚ => (a, a)) = fun a : ℚ => a ^ 2 := rfl
  rw [h1, h2, h3, h4, h5]
  refine ⟨?_, ?_, ?_⟩
  · simp only [List.map_id']
    ring
  · simp only [List.map_id']
  · simp only [List.map_id']

/-- Helper: a column correlates 1.0 with itself whenever its (scaled)
variance over non-null values is nonzero. -/
theorem corrS_self_one (x : List (Option ℚ)) (h : sDen1 (pairsOf x x) ≠ 0) :
    corrS x x = some 1 := by
  obtain ⟨hn, hd1, hd2⟩ := stats_diag (x.filterMap id)
  rw [← pairsOf_self] at hn hd1 hd2
  have hnum : sNum (pairsOf x x) = sDen1 (pairsOf x x) := by rw [hn, hd1]
  have hden2 : sDen2 (pairsOf x x) = sDen1 (pairsOf x x) := by rw [hd2, hd1]
  have hpos : 0 ≤ sDen1 (pairsOf x x) := by
    rw [hd1]
    have := sq_sum_le_card_mul (x.filterMap id)
    linarith
  simp only [corrS, hnum, hden2]
  rw [if_neg (mul_ne_zero h h), abs_of_nonneg hpos, div_self (mul_ne_zero h h)]

/-- Helper: closed form of one correlation-matrix entry under `getD`
indexing (out-of-range indices read as `none`). -/
theorem matrix_entry_eq (cs : List Column) (i j : ℕ) :
    (((cs.map (fun ci => cs.map (fun cj => corrS (numData ci) (numData cj)))).getD i []).getD
        j none) =
      if i < cs.length ∧ j < cs.length then
        corrS (numData (cs.getD i default)) (numData (cs.getD j default))
      else none := by
  rw [List.getD_eq_getElem?_getD _ i, List.getElem?_map]
  by_cases hi : i < cs.length
  · rw [List.getElem?_eq_getElem hi]
    simp only [Option.map_some', Option.getD_some]
    rw [List.getD_eq_getElem?_getD _ j, List.getElem?_map]
    by_cases hj : j < cs.length
    · rw [List.getElem?_eq_getElem hj]
      simp only [Option.map_some', Option.getD_some]
      rw [if_pos (And.intro hi hj)]
      rw [List.getD_eq_getElem?_getD cs i, List.getElem?_eq_getElem hi,
        List.getD_eq_getElem?_getD cs j, List.getElem?_eq_getElem hj]
      rfl
    · rw [List.getElem?_eq_none (Nat.le_of_not_lt hj)]
      simp only [Option.map_none', Option.getD_none]
      rw [if_neg]
      intro hc
      exact hj hc.2
  · rw [List.getElem?_eq_none (Nat.le_of_not_lt hi)]
    simp only [Option.map_none', Option.getD_none, List.getD_nil]
    rw [if_neg]
    intro hc
    exact hi hc.1

/-- C6: with at least two numeric columns `calculate_correlation_matrix`
returns the full matrix over the numeric columns: it is symmetric, and its
diagonal entry is 1.0 for every numeric column with nonzero variance; with
fewer than two numeric columns it returns the empty frame (`none`), not an
error. -/
theorem correlation_matrix_spec (t : Table) :
    (∀ M, corrMatrix t = some M →
      M.length = (numericCols t).length
      ∧ (∀ i j : ℕ, (M.getD i []).getD j none = (M.getD j []).getD i none)
      ∧ (∀ i : ℕ, i < (numericCols t).length →
          selfVarN ((numericCols t).getD i default) ≠ 0 →
          (M.getD i []).getD i none = some 1))
    ∧ ((numericCols t).length < 2 → corrMatrix t = none) := by
  constructor
  · intro M hM
    have h2 : 1 < (numericCols t).length := by
      by_contra h
      rw [corrMatrix, if_neg h] at hM
      cases hM
    rw [corrMatrix, if_pos h2] at hM
    injection hM with hM
    subst hM
    refine ⟨List.length_map _ _, ?_, ?_⟩
    · intro i j
      rw [matrix_entry_eq, matrix_entry_eq]
      by_cases hi : i < (numericCols t).length <;>
        by_cases hj : j < (numericCols t).length
      · rw [if_pos (And.intro hi hj), if_pos (And.intro hj hi)]
        exact corrS_symm _ _
      · rw [if_neg (fun hc => hj hc.2), if_neg (fun hc => hj hc.1)]
      · rw [if_neg (fun hc => hi hc.1), if_neg (fun hc => hi hc.2)]
      · rw [if_neg (fun hc => hi hc.1), if_neg (fun hc => hi hc.2)]
    · intro i hi hv
      rw [matrix_entry_eq, if_pos (And.intro hi hi)]
      exact corrS_self_one _ hv
  · intro h
    rw [corrMatrix, if_neg (by omega)]

/-- Witness for C6 at a table of two two-row numeric columns. -/
theorem correlation_matrix_spec_witness :
    (((corrMatrix tCorrEx).getD []).getD 0 []).getD 0 none = some 1 :=
  ((correlation_matrix_spec tCorrEx).1 ((corrMatrix tCorrEx).getD []) rfl).2.2 0
    (by decide)
    (by norm_num [selfVarN, sDen1, pairsOf, numData, numericCols, isNumC, tCorrEx,
      List.zip_cons_cons, List.filterMap_cons, List.filterMap_nil])
